import Mathlib

/-!
Verification of the blackbox-exporter operator charm (`src/charm.py`,
`src/models.py`, `src/utils.py`, `src/constants.py`).

The charm's logic is shallowly embedded below:
Python dicts of known shape become Lean structures whose fields are
`Option`-valued when the corresponding key may be missing; YAML parsing
(the external `yaml.safe_load`) is an abstract `String → Option Yaml`
function carried in an environment; files, the stored composite status
and the shared snap-registration store are passed as explicit state.

`singleton_snap.SingletonSnapManager` and `snap_management`
(`SnapMap`, `install_snap`) are imported by `charm.py` but their sources
are not part of the repository snapshot; they are modelled from the
specification (see the doc comments on `register`, `getRevisions`,
`unregister`, `isUsedByOtherUnits`).
-/

namespace Blackbox

/-- Constants from `src/constants.py`. -/
def SNAP_NAME : String := "prometheus-blackbox-exporter"

def DEFAULT_PORT : Nat := 9115

/-- `DEFAULT_CONFIG_FILE` from `src/constants.py` (verbatim, including the
leading newline and the indentation). -/
def DEFAULT_CONFIG_FILE : String :=
  "\nmodules:\n    http_2xx:\n        prober: http\n        timeout: 10s\n    tcp_connect:\n        prober: tcp\n        timeout: 10s\n    icmp:\n        prober: icmp\n        timeout: 10s\n        icmp:\n            preferred_ip_protocol: \"ip4\"\n            ip_protocol_fallback: true\n"

/-- A status tuple as produced by `to_tuple(StatusBase)` in `charm.py`:
the pair `(status.name, status.message)`. -/
abbrev StatusTuple := String × String

/-- `to_tuple(ActiveStatus())`. -/
def activeTuple : StatusTuple := ("active", "")

/-- The blocked status written by `_push_config` on a YAML parse failure or
a schema-validation failure (both branches use the same message). -/
def blockedConfigTuple : StatusTuple := ("blocked", "Config file is invalid; see debug-log")

/-- The blocked status written by `_custom_scrape_jobs` when YAML parsing
of the probes file raises. -/
def blockedProbesYamlTuple : StatusTuple :=
  ("blocked", "Error when validating probes file; see debug-log")

/-- The blocked status written by `_custom_scrape_jobs` when pydantic
validation of the probes file fails. -/
def blockedProbesInvalidTuple : StatusTuple :=
  ("blocked", "Invalid probes file; see debug-log")

/-- The `CompositeStatus` TypedDict of `charm.py`: one status tuple per
tracked subsystem (`snap`, `config`, `probes_file`). -/
structure CompositeStatus where
  snap : StatusTuple
  config : StatusTuple
  probes_file : StatusTuple
deriving DecidableEq, Repr

/-- The value installed by `_stored.set_default` in `__init__`:
every subsystem starts as `ActiveStatus`. -/
def initialStatus : CompositeStatus :=
  { snap := activeTuple, config := activeTuple, probes_file := activeTuple }

/-! ## YAML values and the `Config` pydantic model -/

/-- Structured data as returned by `yaml.safe_load`. -/
inductive Yaml where
  | null
  | str (s : String)
  | seq (xs : List Yaml)
  | map (kvs : List (String × Yaml))

/-- Key lookup in a YAML mapping. -/
def yamlLookup (kvs : List (String × Yaml)) (k : String) : Option Yaml :=
  (kvs.find? (fun p => p.1 == k)).map (fun p => p.2)

/-- The `Config` pydantic model of `src/models.py`: the parsed document
must be a mapping (otherwise `Config(**provided_config)` raises) holding a
`modules` key whose value is itself a mapping (`modules: Dict[str, Any]`).
Extra keys are ignored (pydantic default). -/
def configValid : Yaml → Bool
  | .map kvs =>
      match yamlLookup kvs "modules" with
      | some (.map _) => true
      | _ => false
  | _ => false

/-- The environment of external collaborators of `_push_config`:
`yaml.safe_load`, modelled as a function to `Option Yaml`
(`none` = the parse raised). -/
structure Env where
  parseYaml : String → Option Yaml

/-- Python truthiness of the `config_file` charm option
(`str | None`): `not config` is true exactly for `None` and `""`. -/
def falsy : Option String → Bool
  | none => true
  | some s => s == ""

/-- State touched by `_push_config`: the contents of `SNAP_CONFIG_PATH`
(`none` = the file does not exist, as read by `utils.file_contents`) and
the stored composite status. -/
structure ConfigState where
  snapConfigFile : Option String
  status : CompositeStatus
deriving DecidableEq, Repr

/-- Observable outcome of one `_push_config` call: its boolean return
value, the resulting state, and counters of how many times it assigned
`_stored.status["config"]` and wrote the config file. -/
structure PushResult where
  changed : Bool
  state : ConfigState
  configStatusWrites : Nat
  fileWrites : Nat
deriving DecidableEq, Repr

/-- The `if not config: config = DEFAULT_CONFIG_FILE` substitution of
`_push_config`: the value parsed, validated and written when the
short-circuit was not taken. -/
def effectiveConfig (config : Option String) : String :=
  if falsy config then DEFAULT_CONFIG_FILE else config.getD ""

/-- The short-circuit condition of `_push_config`
(`current_config == config or (current_config == DEFAULT_CONFIG_FILE and not config)`). -/
def unchangedShortCircuit (config current : Option String) : Prop :=
  current = config ∨ (current = some DEFAULT_CONFIG_FILE ∧ falsy config = true)

instance (config current : Option String) : Decidable (unchangedShortCircuit config current) :=
  inferInstanceAs (Decidable (_ ∨ _))

/-- `BlackboxExporterOperatorCharm._push_config` (`charm.py:144-195`).

Control flow, in source order:
1. short-circuit returning `False` when the current file contents equal
   the option value, or the file holds `DEFAULT_CONFIG_FILE` and the
   option is falsy — no status assignment, no write;
2. a falsy option is replaced by `DEFAULT_CONFIG_FILE` (`effectiveConfig`);
3. `yaml.safe_load` failure → status `config` blocked, return `False`;
4. `Config(**provided_config)` failure → status `config` blocked,
   return `False` (`configValid` covers both the non-mapping and the
   missing/invalid `modules` cases, as the generic `except` does);
5. otherwise write the file, set status `config` active, return `True`. -/
def pushConfig (env : Env) (config : Option String) (st : ConfigState) : PushResult :=
  if unchangedShortCircuit config st.snapConfigFile then
    { changed := false, state := st, configStatusWrites := 0, fileWrites := 0 }
  else
    match env.parseYaml (effectiveConfig config) with
    | none =>
        { changed := false
          state := { st with status := { st.status with config := blockedConfigTuple } }
          configStatusWrites := 1, fileWrites := 0 }
    | some y =>
        if configValid y then
          { changed := true
            state := { snapConfigFile := some (effectiveConfig config)
                       status := { st.status with config := activeTuple } }
            configStatusWrites := 1, fileWrites := 1 }
        else
          { changed := false
            state := { st with status := { st.status with config := blockedConfigTuple } }
            configStatusWrites := 1, fileWrites := 0 }

/-- The config-driven restart decision of `_reconcile` (`charm.py:129-131`):
`_restart_snap` is called exactly when `_push_config()` returns `True`. -/
def reconcileRestartsSnap (env : Env) (config : Option String) (st : ConfigState) : Bool :=
  (pushConfig env config st).changed

/-! ## Concrete instances used by counterexamples and witnesses -/

/-- An environment whose YAML loader rejects everything; the short-circuit
branch of `_push_config` never reaches the loader, so this suffices for
inputs that take that branch. -/
def envReject : Env := { parseYaml := fun _ => none }

/-- An environment mapping `DEFAULT_CONFIG_FILE` to a parsed mapping with
a `modules` mapping (as the real YAML text of the default config does) and
rejecting everything else. -/
def envDefault : Env :=
  { parseYaml := fun s =>
      if s = DEFAULT_CONFIG_FILE then
        some (.map [("modules", .map [("icmp", .map [])])])
      else none }

/-- A state in which the snap config file does not exist. -/
def stNoFile : ConfigState := { snapConfigFile := none, status := initialStatus }

/-! ## Scrape jobs -/

/-- An entry of a relabel rule list (`relabel_configs` in
`_connectivity_scrape_jobs`): a Python dict with the keys actually used
by the charm. -/
structure RelabelRule where
  source_labels : List String := []
  target_label : String := ""
  replacement : Option String := none
deriving DecidableEq, Repr

/-- A `static_configs` entry: a Python dict whose `targets` and `labels`
keys may each be missing (`none`). Label mappings are association lists
in insertion order. -/
structure StaticEntry where
  targets : Option (List String) := none
  labels : Option (List (String × String)) := none
deriving DecidableEq, Repr

/-- A scrape-job dict. Every key the charm reads or writes is a field;
`none` models an absent key. The self-monitoring, connectivity and
probes-file jobs all use this shape (they are all plain dicts in the
source). -/
structure Job where
  job_name : Option String := none
  metrics_path : Option String := none
  params : Option (List (String × List String)) := none
  scrape_interval : Option String := none
  scrape_timeout : Option String := none
  static_configs : Option (List StaticEntry) := none
  relabel_configs : Option (List RelabelRule) := none
deriving DecidableEq, Repr

/-- The environment identity read by the charm: `PRINCIPAL_HOSTNAME`
(`socket.gethostname()`), `juju_context("principal_unit")`,
`juju_context("availability_zone")` and `self._machine_ip`. -/
structure Ctx where
  hostname : String
  principalUnit : String
  az : String
  machineIp : String
deriving DecidableEq, Repr

/-- One decoded element of a peer's `unit-networks` JSON array
(`utils.Network.to_dict`): `{"iface": ..., "ip": ..., "net": ...}`. -/
structure NetworkDict where
  iface : String
  ip : String
  net : String
deriving DecidableEq, Repr

/-- The relation data published by one peer unit
(`_update_peer_relation_data`): `principal-unit`, `principal-hostname`,
`az`, and the `unit-networks` JSON array. `unitNetworks = none` models an
absent `unit-networks` key, which `_connectivity_scrape_jobs` reads as
`"[]"` via `rel_data.get("unit-networks", "[]")`. -/
structure PeerData where
  principalUnit : String
  principalHostname : String
  az : String
  unitNetworks : Option (List NetworkDict) := none
deriving DecidableEq, Repr

/-- `json.loads(rel_data.get("unit-networks", "[]"))`: the decoded
interface list of a peer, the empty list when the key is absent. -/
def decodedNetworks (u : PeerData) : List NetworkDict := u.unitNetworks.getD []

/-- The `static_configs` entry appended by `_connectivity_scrape_jobs`
for one (peer, network) combination: `targets` holds exactly that
network's IP, and the labels carry the source/destination identity. -/
def connectivityEntry (ctx : Ctx) (u : PeerData) (n : NetworkDict) : StaticEntry :=
  { targets := some [n.ip]
    labels := some
      [("interface", n.iface), ("source", ctx.principalUnit),
       ("source_hostname", ctx.hostname), ("destination", u.principalUnit),
       ("destination_hostname", u.principalHostname), ("source_az", ctx.az),
       ("destination_az", u.az), ("probe", "icmp")] }

/-- The nested loop of `_connectivity_scrape_jobs` over
`relation.units`: `if not unit_networks: continue`, then one appended
entry per network of that peer. -/
def connectivityStaticConfigs (ctx : Ctx) (peers : List PeerData) : List StaticEntry :=
  peers.flatMap (fun u =>
    let nets := decodedNetworks u
    if nets.isEmpty then [] else nets.map (connectivityEntry ctx u))

/-- `BlackboxExporterOperatorCharm._connectivity_scrape_jobs`
(`charm.py:270-319`), with `relation.units` given as a list `peers` (the
iteration order of the Python set does not affect any property proved
here). -/
def connectivityScrapeJobs (ctx : Ctx) (peers : List PeerData) : Job :=
  { job_name := some (ctx.hostname ++ "-connectivity-checks")
    metrics_path := some "/probe"
    params := some [("module", ["icmp"])]
    scrape_interval := some "60s"
    static_configs := some (connectivityStaticConfigs ctx peers)
    relabel_configs := some
      [{ source_labels := ["__address__"], target_label := "__param_target" },
       { source_labels := ["__param_target"], target_label := "instance" },
       { target_label := "__address__", replacement := some (ctx.machineIp ++ ":9115") }] }

/-- The (peer, network-interface) pairs across all peers, in the
enumeration order of `peers`; the specification-side enumeration the
connectivity static configs are compared against. -/
def peerInterfacePairs (peers : List PeerData) : List (PeerData × NetworkDict) :=
  peers.flatMap (fun u => (decodedNetworks u).map (fun n => (u, n)))

/-- `BlackboxExporterOperatorCharm._self_metrics` (`charm.py:321-347`). -/
def selfMetrics (ctx : Ctx) : Job :=
  { job_name := some "be-self-monitoring"
    metrics_path := some "/metrics"
    static_configs := some [{ targets := some [ctx.machineIp ++ ":" ++ toString DEFAULT_PORT] }]
    scrape_timeout := some "10s" }

/-! ## Probes-file validation (`src/models.py`) -/

/-- The whitespace characters removed by Python's `str.strip()` (ASCII
subset). -/
def pyWhitespace (c : Char) : Bool :=
  c == ' ' || c == '\t' || c == '\n' || c == '\r' || c == '\x0B' || c == '\x0C'

/-- Python's `str.strip()`: leading and trailing whitespace removed. -/
def pyStrip (s : String) : String :=
  String.mk (((s.data.dropWhile pyWhitespace).reverse.dropWhile pyWhitespace).reverse)

/-- The `StaticConfig` pydantic model: `targets: List[str]` with
`min_items=1`. An absent `targets` key or a non-list value fails
validation; here only the absent key is representable. -/
def staticEntryValid (sc : StaticEntry) : Bool :=
  match sc.targets with
  | some ts => decide (1 ≤ ts.length)
  | none => false

/-- The `ScrapeJob` pydantic model: required `job_name` non-empty after
`strip()`, `metrics_path` exactly `"/probe"`, required
`params: Dict[str, List[str]]` (any dict of that type, with no
constraint on a `module` key), and `static_configs` with `min_items=1`,
each entry a valid `StaticConfig`. -/
def scrapeJobValid (j : Job) : Bool :=
  (match j.job_name with
   | some n => !(pyStrip n == "")
   | none => false)
  && (match j.metrics_path with
      | some m => m == "/probe"
      | none => false)
  && j.params.isSome
  && (match j.static_configs with
      | some scs => decide (1 ≤ scs.length) && scs.all staticEntryValid
      | none => false)

/-- The parsed probes file: its `scrape_configs` key, which may be
missing. Extra top-level keys are ignored by pydantic. -/
structure ProbesYaml where
  scrape_configs : Option (List Job) := none
deriving DecidableEq, Repr

/-- The `ProbesFile` pydantic model: `scrape_configs: List[ScrapeJob]`
with `min_items=1`. -/
def probesFileValid (p : ProbesYaml) : Bool :=
  match p.scrape_configs with
  | some js => decide (1 ≤ js.length) && js.all scrapeJobValid
  | none => false

/-! ## Custom scrape jobs (`_custom_scrape_jobs`) -/

/-- Replace the first binding of `k` in an association list, or append
`(k, v)`: the effect of `d[k] = v` on a Python dict whose keys are
unique. -/
def setKey : List (String × String) → String → String → List (String × String)
  | [], k, v => [(k, v)]
  | (k', v') :: rest, k, v =>
      if k' = k then (k, v) :: rest else (k', v') :: setKey rest k v

/-- `base.update(extra)` on Python dicts: each binding of `extra` is set
in `base` in order, overwriting existing keys. -/
def dictUpdate (base extra : List (String × String)) : List (String × String) :=
  extra.foldl (fun acc kv => setKey acc kv.1 kv.2) base

/-- Lookup in an association list (first binding wins, as in a Python
dict with unique keys). -/
def lookupKey : List (String × String) → String → Option String
  | [], _ => none
  | (k', v') :: rest, k => if k' = k then some v' else lookupKey rest k

/-- The `extra_labels` dict of `_custom_scrape_jobs`. -/
def extraLabels (ctx : Ctx) : List (String × String) :=
  [("source", ctx.principalUnit), ("source_hostname", ctx.hostname)]

/-- The in-place transformation `_custom_scrape_jobs` applies to each
validated job: `job["job_name"] = f"{PRINCIPAL_HOSTNAME}-{job['job_name']}"`
(validation guarantees the key is present, so `Option.map` is exact on
every reachable input), and for each entry of
`job.get("static_configs", [])`, `labels` is defaulted to `{}` and
updated with `extra_labels`. -/
def transformJob (ctx : Ctx) (j : Job) : Job :=
  { j with
    job_name := j.job_name.map (fun n => ctx.hostname ++ "-" ++ n)
    static_configs :=
      match j.static_configs with
      | none => none
      | some scs => some (scs.map (fun sc =>
          { sc with labels := some (dictUpdate (sc.labels.getD []) (extraLabels ctx)) })) }

/-- `BlackboxExporterOperatorCharm._custom_scrape_jobs`
(`charm.py:349-386`), taking the result of `yaml.safe_load(probes_file)`
(`none` = the load raised). On a load error or a failed `ProbesFile`
validation the stored `probes_file` status is set blocked and no job is
returned; on success the transformed `scrape_configs` list is returned in
order and the status is set active. -/
def customScrapeJobs (ctx : Ctx) (probes : Option ProbesYaml) (st : CompositeStatus) :
    List Job × CompositeStatus :=
  match probes with
  | none => ([], { st with probes_file := blockedProbesYamlTuple })
  | some p =>
      if probesFileValid p then
        ((p.scrape_configs.getD []).map (transformJob ctx),
         { st with probes_file := activeTuple })
      else
        ([], { st with probes_file := blockedProbesInvalidTuple })

/-- The `probes_file` charm option as seen by `_all_scrape_jobs`:
`absentOrEmpty` models a `None` or falsy value (the `if probes_file:`
guard), `loadError` a non-empty string on which `yaml.safe_load` raises,
`parsed p` a non-empty string loading to `p`. -/
inductive ProbesInput where
  | absentOrEmpty
  | loadError
  | parsed (p : ProbesYaml)

/-- `BlackboxExporterOperatorCharm._all_scrape_jobs` (`charm.py:388-426`):
the self-monitoring job, then — whenever the peer relation object is
present (`peerRelation = some peers`, regardless of peer data) — the
connectivity job, then the custom jobs of a truthy `probes_file` option. -/
def allScrapeJobs (ctx : Ctx) (peerRelation : Option (List PeerData))
    (probes : ProbesInput) (st : CompositeStatus) : List Job × CompositeStatus :=
  let jobs := [selfMetrics ctx]
  let jobs :=
    match peerRelation with
    | some peers => jobs ++ [connectivityScrapeJobs ctx peers]
    | none => jobs
  match probes with
  | .absentOrEmpty => (jobs, st)
  | .loadError =>
      let r := customScrapeJobs ctx none st
      (jobs ++ r.1, r.2)
  | .parsed p =>
      let r := customScrapeJobs ctx (some p) st
      (jobs ++ r.1, r.2)

/-! ## Concrete instances for the scrape-job claims -/

/-- A concrete environment identity. -/
def ctx0 : Ctx :=
  { hostname := "host-a", principalUnit := "principal/0", az := "az-1", machineIp := "10.0.0.7" }

/-- A probes file whose single job has `params = {"module": []}` — an
empty `module` list — and is otherwise schema-conforming. -/
def probesEmptyModule : ProbesYaml :=
  { scrape_configs := some
      [{ job_name := some "check-icmp"
         metrics_path := some "/probe"
         params := some [("module", [])]
         static_configs := some [{ targets := some ["10.0.0.1"] }] }] }

/-- A schema-conforming probes file with one job carrying a
probe-supplied `source_hostname` label (to be overwritten). -/
def probesValidOne : ProbesYaml :=
  { scrape_configs := some
      [{ job_name := some "check-charmhub"
         metrics_path := some "/probe"
         params := some [("module", ["http_2xx"])]
         static_configs := some
           [{ targets := some ["https://charmhub.io"]
              labels := some [("source_hostname", "spoofed"), ("team", "obs")] }] }] }

/-- A probes file with no `scrape_configs` key. -/
def probesMissingConfigs : ProbesYaml := { scrape_configs := none }

/-! ## Shared snap-registration store and workload lifecycle

`charm.py` imports `SingletonSnapManager` (from `singleton_snap`) and
`SnapMap` / `install_snap` (from `snap_management`); those modules are not
part of the repository snapshot, so the registration store is modelled
from the specification. The decision logic itself (`_install_snaps`,
`_remove_blackbox_exporter`, `_remove_snap`, `_restart_snap`) is
translated from `charm.py`. -/

/-- Modelled from the spec: a `SnapRegistration` record of the shared
host-scoped registration store — `{consumer_id, workload_name, revision}`,
one record per (consumer, workload). -/
structure SnapRegistration where
  unit : String
  snapName : String
  revision : Nat
deriving DecidableEq, Repr

/-- The shared registration store, read and written by co-located
consumers. -/
abbrev RegStore := List SnapRegistration

/-- Modelled from the spec: `SingletonSnapManager.register` — record this
consumer's `(consumer_id, workload_name, revision)` in the shared store;
registration writes are idempotent per consumer. -/
def register (unit snapName : String) (rev : Nat) (store : RegStore) : RegStore :=
  if store.contains { unit := unit, snapName := snapName, revision := rev } then store
  else store ++ [{ unit := unit, snapName := snapName, revision := rev }]

/-- Modelled from the spec: `SingletonSnapManager.get_revisions` — the
revisions registered by any consumer for the given workload, computed
from the current shared state at call time. -/
def getRevisions (snapName : String) (store : RegStore) : List Nat :=
  store.filterMap (fun r => if r.snapName = snapName then some r.revision else none)

/-- Modelled from the spec: `SingletonSnapManager.unregister` — remove
this consumer's record for the given workload and revision. -/
def unregister (unit snapName : String) (rev : Nat) (store : RegStore) : RegStore :=
  store.filter (fun r => !(r.unit == unit && r.snapName == snapName && r.revision == rev))

/-- Modelled from the spec: `SingletonSnapManager.is_used_by_other_units`
— does any other consumer's record remain for the given workload. -/
def isUsedByOtherUnits (unit snapName : String) (store : RegStore) : Bool :=
  store.any (fun r => r.snapName == snapName && !(r.unit == unit))

/-- `max(revisions) if revisions else 0` in `_install_snaps`. -/
def maxRevision (revisions : List Nat) : Nat :=
  if revisions = [] then 0 else revisions.foldr max 0

/-- Observable outcome of `_install_snaps`: the shared store, the stored
composite status, and the snaps for which `install_snap` + `start` were
performed (`installed`; `start` may then fail, which is caught and only
logged) and for which `start` succeeded (`startedOk`). -/
structure InstallResult where
  store : RegStore
  status : CompositeStatus
  installed : List String
  startedOk : List String
deriving DecidableEq, Repr

/-- The body of the `for snap_name in SnapMap.snaps()` loop of
`_install_snaps` (`charm.py:197-219`): register first, read the revisions
of the current shared state, and install + enable + start only when this
consumer's revision is at least the registered maximum. A `snap.SnapError`
raised by `start` is caught: only a warning is logged and the stored snap
status is left untouched. -/
def installOneSnap (unit : String) (startFails : String → Bool) (acc : InstallResult)
    (snapName : String) (rev : Nat) : InstallResult :=
  let store := register unit snapName rev acc.store
  let revisions := getRevisions snapName store
  if maxRevision revisions ≤ rev then
    if startFails snapName then
      { acc with store := store, installed := acc.installed ++ [snapName] }
    else
      { store := store
        status := { acc.status with snap := activeTuple }
        installed := acc.installed ++ [snapName]
        startedOk := acc.startedOk ++ [snapName] }
  else
    { acc with store := store }

/-- `BlackboxExporterOperatorCharm._install_snaps` (`charm.py:197-219`),
with the snap map (name, revision) pairs of `SnapMap.snaps()` /
`SnapMap.get_revision` given as the list `snapMap` (modelled from the
spec: the snap-management module is not in the snapshot). `startFails`
says whether `self.snap(name).start(enable=True)` raises for a snap. -/
def installSnaps (unit : String) (snapMap : List (String × Nat)) (startFails : String → Bool)
    (store : RegStore) (status : CompositeStatus) : InstallResult :=
  snapMap.foldl (fun acc q => installOneSnap unit startFails acc q.1 q.2)
    { store := store, status := status, installed := [], startedOk := [] }

/-- An operation performed on the snap runtime during teardown. -/
inductive SnapOp where
  | restart
  | removeAttempt
deriving DecidableEq, Repr

/-- `self.snap(name).restart()`: raises `snap.SnapError` when the runtime
fails. -/
def snapRestartCall (restartFails : Bool) : Except String Unit :=
  if restartFails then .error "SnapError" else .ok ()

/-- `BlackboxExporterOperatorCharm._restart_snap` (`charm.py:221-226`):
the `snap.SnapError` is caught and only a warning is logged. -/
def restartSnapCharm (restartFails : Bool) : Except String Unit :=
  match snapRestartCall restartFails with
  | .ok _ => .ok ()
  | .error _ => .ok ()

/-- `self.snap(name).ensure(state=snap.SnapState.Absent)`: raises when
removal fails. -/
def snapEnsureAbsent (removeFails : Bool) : Except String Unit :=
  if removeFails then .error "SnapError" else .ok ()

/-- `BlackboxExporterOperatorCharm._remove_snap` (`charm.py:245-254`):
`snap.SnapError` and `SnapSpecError` are caught and logged, the remove
hook is not failed. -/
def removeSnapCharm (removeFails : Bool) : Except String Unit :=
  match snapEnsureAbsent removeFails with
  | .ok _ => .ok ()
  | .error _ => .ok ()

/-- Observable outcome of `_remove_blackbox_exporter`: the shared store,
the snap operations attempted, and whether an exception escaped the
method. -/
structure RemoveResult where
  store : RegStore
  ops : List SnapOp
  outcome : Except String Unit
deriving Repr

/-- `BlackboxExporterOperatorCharm._remove_blackbox_exporter`
(`charm.py:228-243`): unregister this consumer's record first; if other
consumers' records remain, restart the snap (never remove it); otherwise
attempt removal inside a `try` whose generic `except` logs and swallows
any failure. `snapRevision` is `SnapMap.get_revision(SNAP_NAME)`. -/
def removeBlackboxExporter (unit : String) (snapRevision : Nat)
    (restartFails removeFails : Bool) (store : RegStore) : RemoveResult :=
  let store' := unregister unit SNAP_NAME snapRevision store
  if isUsedByOtherUnits unit SNAP_NAME store' then
    { store := store', ops := [.restart], outcome := restartSnapCharm restartFails }
  else
    { store := store', ops := [.removeAttempt]
      outcome :=
        match removeSnapCharm removeFails with
        | .ok _ => .ok ()
        | .error _ => .ok () }

end Blackbox

namespace Blackbox

/-! ## Theorems: config push (claims about `_push_config` / `_reconcile`) -/

/-- After `_push_config` has written `effectiveConfig config`, the
short-circuit condition holds for the same option value: a second call
sees the file unchanged. -/
theorem shortCircuit_after_write (config : Option String) :
    unchangedShortCircuit config (some (effectiveConfig config)) := by
  by_cases hf : falsy config = true
  · exact Or.inr ⟨by simp [effectiveConfig, hf], hf⟩
  · left
    cases config with
    | none => simp [falsy] at hf
    | some s =>
      have hfs : falsy (some s) = false := by
        cases hfs : falsy (some s) with
        | false => rfl
        | true => exact absurd hfs hf
      simp [effectiveConfig, hfs]

/-- C2: Invoking `_push_config` twice in a row with the identical
`config_file` value is idempotent: the second invocation returns `False`,
performs no file write, and `_reconcile` triggers no snap restart for it. -/
theorem push_config_idempotent (env : Env) (config : Option String) (st : ConfigState) :
    (pushConfig env config (pushConfig env config st).state).changed = false
    ∧ (pushConfig env config (pushConfig env config st).state).fileWrites = 0
    ∧ reconcileRestartsSnap env config (pushConfig env config st).state = false := by
  have main :
      (pushConfig env config (pushConfig env config st).state).changed = false
      ∧ (pushConfig env config (pushConfig env config st).state).fileWrites = 0 := by
    by_cases h : unchangedShortCircuit config st.snapConfigFile
    · simp [pushConfig, h]
    · rcases hp : env.parseYaml (effectiveConfig config) with _ | y
      · simp [pushConfig, h, hp]
      · by_cases hv : configValid y = true
        · simp [pushConfig, h, hp, hv, shortCircuit_after_write]
        · simp [pushConfig, h, hp, hv]
  exact ⟨main.1, main.2, main.1⟩

/-- C3 counterexample: the claim "every single invocation of `_push_config`
performs exactly one mutation of the configuration status entry" is false:
with the option unset and the config file absent, the short-circuit branch
performs zero status mutations. -/
theorem push_config_zero_status_writes :
    (pushConfig envReject none stNoFile).configStatusWrites = 0
    ∧ (pushConfig envReject none stNoFile).configStatusWrites ≠ 1 := by
  decide

/-- C3 (amended): every invocation of `_push_config` performs at most one
mutation of the `config` status entry — exactly zero when the unchanged
short-circuit is taken and exactly one otherwise — and at most one file
write, and never changes the `snap` or `probes_file` status entries. -/
theorem push_config_frame (env : Env) (config : Option String) (st : ConfigState) :
    (pushConfig env config st).configStatusWrites ≤ 1
    ∧ (pushConfig env config st).fileWrites ≤ 1
    ∧ (pushConfig env config st).state.status.snap = st.status.snap
    ∧ (pushConfig env config st).state.status.probes_file = st.status.probes_file
    ∧ ((pushConfig env config st).configStatusWrites = 0
        ↔ unchangedShortCircuit config st.snapConfigFile) := by
  by_cases h : unchangedShortCircuit config st.snapConfigFile
  · simp [pushConfig, h]
  · rcases hp : env.parseYaml (effectiveConfig config) with _ | y
    · simp [pushConfig, h, hp]
    · by_cases hv : configValid y = true <;> simp [pushConfig, h, hp, hv]

/-- C10: with the config file absent on disk and the `config_file` option
unset, `_push_config` short-circuits: it returns `False`, writes nothing,
and the default configuration is never materialized on disk; with an
explicitly empty-string option it substitutes `DEFAULT_CONFIG_FILE`,
writes it, and returns `True`. Absent and empty-string options are
therefore not equivalent. The hypothesis records that the real default
config text parses to a mapping with a `modules` mapping. -/
theorem push_config_absent_vs_empty (env : Env) (stat : CompositeStatus)
    (h : ∃ y, env.parseYaml DEFAULT_CONFIG_FILE = some y ∧ configValid y = true) :
    (pushConfig env none { snapConfigFile := none, status := stat }).changed = false
    ∧ (pushConfig env none { snapConfigFile := none, status := stat }).fileWrites = 0
    ∧ (pushConfig env none { snapConfigFile := none, status := stat }).state.snapConfigFile = none
    ∧ (pushConfig env (some "") { snapConfigFile := none, status := stat }).changed = true
    ∧ (pushConfig env (some "") { snapConfigFile := none, status := stat }).fileWrites = 1
    ∧ (pushConfig env (some "") { snapConfigFile := none, status := stat }).state.snapConfigFile
        = some DEFAULT_CONFIG_FILE := by
  obtain ⟨y, hy, hv⟩ := h
  have hsc : unchangedShortCircuit none (none : Option String) := Or.inl rfl
  have hnsc : ¬ unchangedShortCircuit (some "") (none : Option String) := by
    unfold unchangedShortCircuit
    simp
  have heff : effectiveConfig (some "") = DEFAULT_CONFIG_FILE := by
    simp [effectiveConfig, falsy]
  refine ⟨?_, ?_, ?_, ?_, ?_, ?_⟩ <;> simp [pushConfig, hsc, hnsc, heff, hy, hv]

/-- C10 witness: the theorem instantiated at `envDefault` and the initial
status, with the parse hypothesis discharged concretely. -/
theorem push_config_absent_vs_empty_witness :
    (∃ y, envDefault.parseYaml DEFAULT_CONFIG_FILE = some y ∧ configValid y = true)
    ∧ ((pushConfig envDefault none { snapConfigFile := none, status := initialStatus }).changed = false
    ∧ (pushConfig envDefault none { snapConfigFile := none, status := initialStatus }).fileWrites = 0
    ∧ (pushConfig envDefault none { snapConfigFile := none, status := initialStatus }).state.snapConfigFile = none
    ∧ (pushConfig envDefault (some "") { snapConfigFile := none, status := initialStatus }).changed = true
    ∧ (pushConfig envDefault (some "") { snapConfigFile := none, status := initialStatus }).fileWrites = 1
    ∧ (pushConfig envDefault (some "") { snapConfigFile := none, status := initialStatus }).state.snapConfigFile
        = some DEFAULT_CONFIG_FILE) :=
  ⟨⟨.map [("modules", .map [("icmp", .map [])])], by simp [envDefault], rfl⟩,
   push_config_absent_vs_empty envDefault initialStatus
     ⟨.map [("modules", .map [("icmp", .map [])])], by simp [envDefault], rfl⟩⟩

/-! ## Theorems: connectivity scrape job (C1) -/

/-- The skip-empty loop of `_connectivity_scrape_jobs` enumerates exactly
the (peer, interface) pairs, in order. -/
theorem connectivityStaticConfigs_eq_pairs (ctx : Ctx) (peers : List PeerData) :
    connectivityStaticConfigs ctx peers
      = (peerInterfacePairs peers).map (fun q => connectivityEntry ctx q.1 q.2) := by
  induction peers with
  | nil => rfl
  | cons u t ih =>
    simp only [connectivityStaticConfigs, peerInterfacePairs, List.flatMap_cons,
      List.map_append] at *
    rw [ih]
    congr 1
    cases hnets : decodedNetworks u with
    | nil => simp
    | cons a l => simp [List.map_map]

/-- Length of the pair enumeration: the sum of the peers' decoded
interface counts. -/
theorem peerInterfacePairs_length (peers : List PeerData) :
    (peerInterfacePairs peers).length
      = (peers.map (fun u => (decodedNetworks u).length)).sum := by
  induction peers with
  | nil => rfl
  | cons u t ih =>
    have hsplit : peerInterfacePairs (u :: t)
        = ((decodedNetworks u).map (fun n => (u, n))) ++ peerInterfacePairs t := by
      simp [peerInterfacePairs, List.flatMap_cons]
    rw [hsplit]
    simp [ih]

/-- C1: the connectivity job's static_configs holds exactly one separate
entry per (peer, network-interface) pair across all peers, in enumeration
order: its length is the sum of the peers' decoded interface counts
(entries are never merged), each entry's `targets` is exactly that
interface's IP, and a peer whose `unit-networks` is absent or decodes to
the empty list contributes zero entries without error. -/
theorem connectivity_one_entry_per_pair (ctx : Ctx) (peers : List PeerData) :
    (connectivityScrapeJobs ctx peers).static_configs
        = some ((peerInterfacePairs peers).map (fun q => connectivityEntry ctx q.1 q.2))
    ∧ ((connectivityScrapeJobs ctx peers).static_configs.getD []).length
        = (peers.map (fun u => (decodedNetworks u).length)).sum
    ∧ (∀ (u : PeerData) (n : NetworkDict), (connectivityEntry ctx u n).targets = some [n.ip])
    ∧ (∀ (pu ph paz : String) (rest : List PeerData),
        connectivityStaticConfigs ctx
            ({ principalUnit := pu, principalHostname := ph, az := paz,
               unitNetworks := none } :: rest)
          = connectivityStaticConfigs ctx rest
        ∧ connectivityStaticConfigs ctx
            ({ principalUnit := pu, principalHostname := ph, az := paz,
               unitNetworks := some [] } :: rest)
          = connectivityStaticConfigs ctx rest) := by
  refine ⟨?_, ?_, ?_, ?_⟩
  · simp [connectivityScrapeJobs, connectivityStaticConfigs_eq_pairs]
  · simp [connectivityScrapeJobs, connectivityStaticConfigs_eq_pairs, peerInterfacePairs_length]
  · intro u n; rfl
  · intro pu ph paz rest
    constructor <;> simp [connectivityStaticConfigs, List.flatMap_cons, decodedNetworks]

/-! ## Theorems: probes-file validation (C4) -/

/-- One schema violation makes the whole `ScrapeJob` pydantic model
reject the job. -/
theorem scrapeJobValid_false_of_violation (j : Job)
    (h : j.job_name = none ∨ (∃ n, j.job_name = some n ∧ pyStrip n = "")
      ∨ j.metrics_path ≠ some "/probe"
      ∨ j.params = none
      ∨ j.static_configs = none ∨ j.static_configs = some []
      ∨ ∃ sc ∈ j.static_configs.getD [], sc.targets = none ∨ sc.targets = some []) :
    scrapeJobValid j = false := by
  rcases h with h | ⟨n, hn, ht⟩ | h | h | h | h | ⟨sc, hsc, hv⟩
  · simp [scrapeJobValid, h]
  · simp [scrapeJobValid, hn, ht]
  · rcases hm : j.metrics_path with _ | m
    · simp [scrapeJobValid, hm]
    · have hne : ¬(m = "/probe") := fun he => h (by rw [hm, he])
      simp [scrapeJobValid, hm, hne]
  · simp [scrapeJobValid, h]
  · simp [scrapeJobValid, h]
  · simp [scrapeJobValid, h]
  · rcases hs : j.static_configs with _ | scs
    · simp [scrapeJobValid, hs]
    · have hmem : sc ∈ scs := by rw [hs] at hsc; simpa using hsc
      have hsv : staticEntryValid sc = false := by
        rcases hv with hv | hv <;> simp [staticEntryValid, hv]
      simp [scrapeJobValid, hs]
      intros
      exact ⟨sc, hmem, hsv⟩

/-- C4 (amended): probe-file validation is all-or-nothing over the
violations the schema actually checks: if `scrape_configs` is missing or
empty, or any entry has a missing `job_name` or one empty after trimming,
a `metrics_path` different from `/probe`, a missing `params` mapping, a
missing or empty `static_configs`, or a static_configs entry with missing
or empty `targets`, then `_custom_scrape_jobs` sets the probes-file
status to blocked and returns the empty list. (The probes-supplied
`params.module` list is not inspected: `params` must merely be present.) -/
theorem probes_validation_all_or_nothing (ctx : Ctx) (p : ProbesYaml) (st : CompositeStatus)
    (h : p.scrape_configs = none ∨ p.scrape_configs = some []
      ∨ ∃ j ∈ p.scrape_configs.getD [],
          j.job_name = none ∨ (∃ n, j.job_name = some n ∧ pyStrip n = "")
          ∨ j.metrics_path ≠ some "/probe"
          ∨ j.params = none
          ∨ j.static_configs = none ∨ j.static_configs = some []
          ∨ ∃ sc ∈ j.static_configs.getD [], sc.targets = none ∨ sc.targets = some []) :
    customScrapeJobs ctx (some p) st
      = ([], { st with probes_file := blockedProbesInvalidTuple }) := by
  have hvalid : probesFileValid p = false := by
    rcases h with h | h | ⟨j, hj, hviol⟩
    · simp [probesFileValid, h]
    · simp [probesFileValid, h]
    · rcases hc : p.scrape_configs with _ | js
      · rw [hc] at hj; simp at hj
      · have hjm : j ∈ js := by rw [hc] at hj; simpa using hj
        have hjf : scrapeJobValid j = false := scrapeJobValid_false_of_violation j hviol
        simp [probesFileValid, hc]
        intros
        exact ⟨j, hjm, hjf⟩
  simp [customScrapeJobs, hvalid]

/-- C4 witness: a probes file with no `scrape_configs` key is rejected
whole. -/
theorem probes_validation_all_or_nothing_witness :
    (probesMissingConfigs.scrape_configs = none ∨ probesMissingConfigs.scrape_configs = some []
      ∨ ∃ j ∈ probesMissingConfigs.scrape_configs.getD [],
          j.job_name = none ∨ (∃ n, j.job_name = some n ∧ pyStrip n = "")
          ∨ j.metrics_path ≠ some "/probe"
          ∨ j.params = none
          ∨ j.static_configs = none ∨ j.static_configs = some []
          ∨ ∃ sc ∈ j.static_configs.getD [], sc.targets = none ∨ sc.targets = some [])
    ∧ customScrapeJobs ctx0 (some probesMissingConfigs) initialStatus
        = ([], { initialStatus with probes_file := blockedProbesInvalidTuple }) :=
  ⟨Or.inl rfl,
   probes_validation_all_or_nothing ctx0 probesMissingConfigs initialStatus (Or.inl rfl)⟩

/-- C4 counterexample: a probes file whose only job has
`params = {"module": []}` — an empty `params.module` list, which the
claim says must be rejected — passes validation: `_custom_scrape_jobs`
returns a non-empty job list and sets the probes-file status to active,
not blocked. -/
theorem probes_empty_module_accepted :
    probesFileValid probesEmptyModule = true
    ∧ (customScrapeJobs ctx0 (some probesEmptyModule) initialStatus).1 ≠ []
    ∧ (customScrapeJobs ctx0 (some probesEmptyModule) initialStatus).2.probes_file
        = activeTuple := by
  decide

/-! ## Theorems: custom scrape-job transformation (C6) -/

/-- Looking up the key just set by `setKey` yields the new value. -/
theorem lookupKey_setKey_self (kvs : List (String × String)) (k v : String) :
    lookupKey (setKey kvs k v) k = some v := by
  induction kvs with
  | nil => simp [setKey, lookupKey]
  | cons a t ih =>
    by_cases hk : a.1 = k
    · simp [setKey, hk, lookupKey]
    · simp [setKey, hk, lookupKey, ih]

/-- `setKey` does not change the binding of other keys. -/
theorem lookupKey_setKey_other (kvs : List (String × String)) (k v k' : String)
    (h : k' ≠ k) :
    lookupKey (setKey kvs k v) k' = lookupKey kvs k' := by
  induction kvs with
  | nil => simp [setKey, lookupKey, Ne.symm h]
  | cons a t ih =>
    by_cases hk : a.1 = k
    · simp [setKey, hk, lookupKey, Ne.symm h, h]
    · by_cases hk' : a.1 = k'
      · simp [setKey, hk, lookupKey, hk', h]
      · simp [setKey, hk, lookupKey, hk', ih]

/-- The fixed extra labels of `_custom_scrape_jobs` win over any
probe-supplied binding of the same keys, whatever the base labels. -/
theorem lookup_dictUpdate_extra (ctx : Ctx) (base : List (String × String)) :
    lookupKey (dictUpdate base (extraLabels ctx)) "source" = some ctx.principalUnit
    ∧ lookupKey (dictUpdate base (extraLabels ctx)) "source_hostname" = some ctx.hostname := by
  have hshape : dictUpdate base (extraLabels ctx)
      = setKey (setKey base "source" ctx.principalUnit) "source_hostname" ctx.hostname := rfl
  constructor
  · rw [hshape, lookupKey_setKey_other _ _ _ _ (by decide)]
    exact lookupKey_setKey_self _ _ _
  · rw [hshape]
    exact lookupKey_setKey_self _ _ _

/-- C6: for a probes file that passes validation, `_custom_scrape_jobs`
returns the jobs in their original order and number, each job's name
equal to the local principal hostname, a `-`, and the original
`job_name`; every static_configs entry's labels bind `source` to the
principal unit id and `source_hostname` to the hostname, overwriting any
probe-supplied binding of those keys; the probes-file status is set
active. -/
theorem custom_jobs_success (ctx : Ctx) (p : ProbesYaml) (st : CompositeStatus)
    (h : probesFileValid p = true) :
    (customScrapeJobs ctx (some p) st).1.length = (p.scrape_configs.getD []).length
    ∧ (∀ i : Nat, ((customScrapeJobs ctx (some p) st).1[i]?).map Job.job_name
        = ((p.scrape_configs.getD [])[i]?).map
            (fun j => j.job_name.map (fun n => ctx.hostname ++ "-" ++ n)))
    ∧ (∀ j ∈ (customScrapeJobs ctx (some p) st).1, ∀ sc ∈ j.static_configs.getD [],
        lookupKey (sc.labels.getD []) "source" = some ctx.principalUnit
        ∧ lookupKey (sc.labels.getD []) "source_hostname" = some ctx.hostname)
    ∧ (customScrapeJobs ctx (some p) st).2.probes_file = activeTuple := by
  have hjobs : (customScrapeJobs ctx (some p) st).1
      = (p.scrape_configs.getD []).map (transformJob ctx) := by
    simp [customScrapeJobs, h]
  refine ⟨?_, ?_, ?_, ?_⟩
  · rw [hjobs, List.length_map]
  · intro i
    rw [hjobs, List.getElem?_map]
    cases hx : (p.scrape_configs.getD [])[i]? with
    | none => rfl
    | some j => simp [transformJob]
  · intro j hj sc hsc
    rw [hjobs] at hj
    obtain ⟨j₀, hj₀, hje⟩ := List.mem_map.mp hj
    rw [← hje] at hsc
    rcases hs : j₀.static_configs with _ | scs
    · rw [transformJob] at hsc
      simp [hs] at hsc
    · have hsc' : sc ∈ scs.map (fun sc =>
          { sc with labels := some (dictUpdate (sc.labels.getD []) (extraLabels ctx)) }) := by
        rw [transformJob] at hsc
        simpa [hs] using hsc
      obtain ⟨sc₀, _, hsce⟩ := List.mem_map.mp hsc'
      rw [← hsce]
      simpa using lookup_dictUpdate_extra ctx (sc₀.labels.getD [])
  · simp [customScrapeJobs, h]

/-- C6 witness: the theorem applied to a concrete valid probes file whose
probe-supplied `source_hostname` label gets overwritten. -/
theorem custom_jobs_success_witness :
    probesFileValid probesValidOne = true
    ∧ ((customScrapeJobs ctx0 (some probesValidOne) initialStatus).1.length
          = (probesValidOne.scrape_configs.getD []).length
      ∧ (∀ i : Nat, ((customScrapeJobs ctx0 (some probesValidOne) initialStatus).1[i]?).map Job.job_name
          = ((probesValidOne.scrape_configs.getD [])[i]?).map
              (fun j => j.job_name.map (fun n => ctx0.hostname ++ "-" ++ n)))
      ∧ (∀ j ∈ (customScrapeJobs ctx0 (some probesValidOne) initialStatus).1,
          ∀ sc ∈ j.static_configs.getD [],
            lookupKey (sc.labels.getD []) "source" = some ctx0.principalUnit
            ∧ lookupKey (sc.labels.getD []) "source_hostname" = some ctx0.hostname)
      ∧ (customScrapeJobs ctx0 (some probesValidOne) initialStatus).2.probes_file
          = activeTuple) :=
  ⟨by decide, custom_jobs_success ctx0 probesValidOne initialStatus (by decide)⟩

/-! ## Theorems: job composition (C5) -/

/-- C5 counterexample: with the peer relation object present but holding
zero peer units (so no peer data exists), `_all_scrape_jobs` still
returns the connectivity job — two jobs, not one — with empty
static_configs. -/
theorem connectivity_job_without_peer_data :
    (allScrapeJobs ctx0 (some []) ProbesInput.absentOrEmpty initialStatus).1.length = 2
    ∧ (allScrapeJobs ctx0 (some []) ProbesInput.absentOrEmpty initialStatus).1.length ≠ 1
    ∧ (allScrapeJobs ctx0 (some []) ProbesInput.absentOrEmpty initialStatus).1[1]?
        = some (connectivityScrapeJobs ctx0 [])
    ∧ (connectivityScrapeJobs ctx0 []).job_name = some "host-a-connectivity-checks"
    ∧ (connectivityScrapeJobs ctx0 []).static_configs = some [] := by
  decide

/-- C5 (amended): the composed list always begins with the
self-monitoring job, whose name is `be-self-monitoring`; the connectivity
job is appended exactly when the peer relation object is present,
regardless of whether peer data exists; with no peer relation and an
absent or empty probes file the composer returns exactly the
self-monitoring job. -/
theorem all_jobs_composition (ctx : Ctx) (peers : List PeerData) (st : CompositeStatus) :
    (allScrapeJobs ctx none ProbesInput.absentOrEmpty st).1 = [selfMetrics ctx]
    ∧ (allScrapeJobs ctx (some peers) ProbesInput.absentOrEmpty st).1
        = [selfMetrics ctx, connectivityScrapeJobs ctx peers]
    ∧ (selfMetrics ctx).job_name = some "be-self-monitoring"
    ∧ (∀ (pr : Option (List PeerData)) (probes : ProbesInput),
        ((allScrapeJobs ctx pr probes st).1).head? = some (selfMetrics ctx)) := by
  refine ⟨rfl, rfl, rfl, ?_⟩
  intro pr probes
  cases pr <;> cases probes <;> simp [allScrapeJobs]

/-! ## Theorems: snap installation (C7, C9) -/

/-- C7 counterexample: when starting the snap fails during install, the
failure is not surfaced: `_install_snaps` completes (the snap was
installed, the start attempted), and the stored snap status still reads
active — the claim that the workload status must not remain ok is false
on the code. -/
theorem install_start_failure_status_ok :
    (installSnaps "unit0" [(SNAP_NAME, 1)] (fun _ => true) [] initialStatus).status.snap
        = ("active", "")
    ∧ (installSnaps "unit0" [(SNAP_NAME, 1)] (fun _ => true) [] initialStatus).installed
        = [SNAP_NAME]
    ∧ (installSnaps "unit0" [(SNAP_NAME, 1)] (fun _ => true) [] initialStatus).startedOk
        = [] := by
  decide

/-- C7 (amended): a snap start failure during install is caught inside
`_install_snaps` — only a warning is logged — so the lifecycle event
completes normally and the stored composite status is left exactly as it
was (in particular the snap status entry remains ok when it was ok); the
inactivity is surfaced only by the separate live `is_snap_active` check
at status-collection time. -/
theorem install_start_failure_swallowed (unit : String) (snapMap : List (String × Nat))
    (store : RegStore) (st : CompositeStatus) :
    (installSnaps unit snapMap (fun _ => true) store st).status = st := by
  suffices hgen : ∀ (acc : InstallResult), acc.status = st →
      (snapMap.foldl (fun acc q => installOneSnap unit (fun _ => true) acc q.1 q.2) acc).status
        = st by
    exact hgen { store := store, status := st, installed := [], startedOk := [] } rfl
  induction snapMap with
  | nil => intro acc hacc; simpa using hacc
  | cons q t ih =>
    intro acc hacc
    simp only [List.foldl_cons]
    apply ih
    by_cases hrev : maxRevision (getRevisions q.1 (register unit q.1 q.2 acc.store)) ≤ q.2
    · simp [installOneSnap, hrev, hacc]
    · simp [installOneSnap, hrev, hacc]

/-- C9: `_install_snaps` records this consumer's registration in the
shared store before any install decision (the store holds it afterwards
even when the install is skipped), and install + enable + start are
performed exactly when this consumer's revision is at least the maximum
revision registered for the snap — read back from the store after the
registration, the empty revision set counting as maximum 0. A consumer
registering revision 3 after another registered revision 5 skips install
and start. -/
theorem install_gated_on_max_revision (unit snapName : String) (rev : Nat)
    (startFails : String → Bool) (store : RegStore) (st : CompositeStatus) :
    (installSnaps unit [(snapName, rev)] startFails store st).store
        = register unit snapName rev store
    ∧ (installSnaps unit [(snapName, rev)] startFails store st).installed
        = (if maxRevision (getRevisions snapName (register unit snapName rev store)) ≤ rev
           then [snapName] else [])
    ∧ (installSnaps "unit-b" [(SNAP_NAME, 3)] startFails
          [{ unit := "unit-a", snapName := SNAP_NAME, revision := 5 }] st).installed = [] := by
  refine ⟨?_, ?_, ?_⟩
  · by_cases hrev : maxRevision (getRevisions snapName (register unit snapName rev store)) ≤ rev
    · by_cases hsf : startFails snapName = true <;>
        simp [installSnaps, installOneSnap, hrev, hsf]
    · simp [installSnaps, installOneSnap, hrev]
  · by_cases hrev : maxRevision (getRevisions snapName (register unit snapName rev store)) ≤ rev
    · by_cases hsf : startFails snapName = true <;>
        simp [installSnaps, installOneSnap, hrev, hsf]
    · simp [installSnaps, installOneSnap, hrev]
  · have hrev : ¬(maxRevision (getRevisions SNAP_NAME
        (register "unit-b" SNAP_NAME 3
          [{ unit := "unit-a", snapName := SNAP_NAME, revision := 5 }])) ≤ 3) := by
      decide
    simp [installSnaps, installOneSnap, hrev]

/-! ## Theorems: teardown (C8) -/

/-- C8: `_remove_blackbox_exporter` unregisters this consumer's record
first; when at least one other consumer remains registered for the snap
it calls restart and never remove, when zero remain it attempts remove;
and no failure of the restart or remove call propagates out of the
method. -/
theorem teardown_behavior (unit : String) (snapRevision : Nat)
    (restartFails removeFails : Bool) (store : RegStore) :
    (removeBlackboxExporter unit snapRevision restartFails removeFails store).store
        = unregister unit SNAP_NAME snapRevision store
    ∧ (removeBlackboxExporter unit snapRevision restartFails removeFails store).ops
        = (if isUsedByOtherUnits unit SNAP_NAME (unregister unit SNAP_NAME snapRevision store)
           then [SnapOp.restart] else [SnapOp.removeAttempt])
    ∧ (removeBlackboxExporter unit snapRevision restartFails removeFails store).outcome
        = .ok () := by
  by_cases hused : isUsedByOtherUnits unit SNAP_NAME (unregister unit SNAP_NAME snapRevision store)
      = true
  · refine ⟨?_, ?_, ?_⟩ <;>
      cases restartFails <;>
        simp [removeBlackboxExporter, hused, restartSnapCharm, snapRestartCall]
  · refine ⟨?_, ?_, ?_⟩ <;>
      cases removeFails <;>
        simp [removeBlackboxExporter, hused, removeSnapCharm, snapEnsureAbsent]

end Blackbox
